import Mathlib

/-!
# Verification of the session/authentication and object-cache core of `webapp/app.py`

This file gives a shallow embedding of the login-throttling, session and
video-object-cache logic of `src/webapp/app.py` and proves the spec's
testable properties about it.

Modelling conventions:
* Wall-clock timestamps (`time.time()` floats in Python) are modelled as `Int`.
  All comparisons in the source are order comparisons, so the boundary
  behaviour is preserved exactly.
* The module-level dictionaries (`failed_login_attempts : defaultdict(list)`,
  `blocked_ips`, `active_sessions`, `video_objects_cache`) are modelled as
  total functions from `String`.  A missing key of `blocked_ips`,
  `active_sessions` and `video_objects_cache` is `none`; `failed_login_attempts`
  is a `defaultdict(list)`, so a missing key is indistinguishable from `[]`
  and is modelled as `[]`.
* Randomness (`secrets.token_urlsafe(32)`, `uuid.uuid4()`) and the external
  generative-media SDK are collaborators outside this core: the freshly
  generated token / UUID and the outcome of the remote generation call enter
  the model as explicit parameters.
* Each handler is a pure function from its inputs and the pre-state to its
  response and the post-state.
-/

/-- Pointwise update of a string-keyed map, the model of `d[k] = v` /
`del d[k]` (with `v := none`) on a Python dict. -/
def updateMap {α : Type} (m : String → α) (k : String) (v : α) : String → α :=
  fun q => if q = k then v else m q

/-- `BLOCK_DURATION = 300  # 5분 블록` (app.py line 131). -/
def BLOCK_DURATION : Int := 300

/-- `MAX_FAILED_ATTEMPTS = 3` (app.py line 132). -/
def MAX_FAILED_ATTEMPTS : Nat := 3

/-- `ATTEMPT_WINDOW = 60  # 1분` (app.py line 133). -/
def ATTEMPT_WINDOW : Int := 60

/-- `LOGIN_ID = os.getenv("LOGIN_ID", "admin")` (app.py line 120); modelled
with its default value. -/
def LOGIN_ID : String := "admin"

/-- `LOGIN_PASSWORD = os.getenv("LOGIN_PASSWORD", "admin")` (app.py line 121);
modelled with its default value. -/
def LOGIN_PASSWORD : String := "admin"

/-- Value of `active_sessions[token]`: the dict
`{"ip": str, "created_at": float}` stored on login (app.py lines 438-441). -/
structure SessionData where
  ip : String
  created_at : Int
  deriving DecidableEq

/-- The `active_sessions` store: `session_token -> {"ip", "created_at"}`. -/
abbrev Sessions := String → Option SessionData

/-- The mutable module-level state of the auth core of `app.py`:
`failed_login_attempts`, `blocked_ips` and `active_sessions`. -/
structure ServerState where
  failed_login_attempts : String → List Int
  blocked_ips : String → Option Int
  active_sessions : Sessions

/-- The state at process start: all three dicts empty. -/
def emptyState : ServerState where
  failed_login_attempts := fun _ => []
  blocked_ips := fun _ => none
  active_sessions := fun _ => none

/-- `is_ip_blocked(ip)` (app.py lines 298-306).  Reads `time.time()` as `now`.
Returns `True` while the stored block expiry lies in the future; an expired
entry is deleted (lazy cleanup) and `False` is returned. -/
def is_ip_blocked (ip : String) (now : Int) (s : ServerState) : Bool × ServerState :=
  match s.blocked_ips ip with
  | some block_until =>
      if now < block_until then
        (true, s)
      else
        (false, { s with blocked_ips := updateMap s.blocked_ips ip none })
  | none => (false, s)

/-- `record_failed_attempt(ip)` (app.py lines 308-324).  Reads `time.time()`
as `now`; keeps only the attempts `t` with `now - t < ATTEMPT_WINDOW`,
appends `now`, and if the resulting count reaches `MAX_FAILED_ATTEMPTS`
blocks the ip until `now + BLOCK_DURATION`, clears its ledger and returns
`True`; otherwise returns `False`. -/
def record_failed_attempt (ip : String) (now : Int) (s : ServerState) : Bool × ServerState :=
  let pruned := (s.failed_login_attempts ip).filter (fun t => now - t < ATTEMPT_WINDOW)
  let attempts := pruned ++ [now]
  if MAX_FAILED_ATTEMPTS ≤ attempts.length then
    (true,
      { s with
        blocked_ips := updateMap s.blocked_ips ip (some (now + BLOCK_DURATION)),
        failed_login_attempts := updateMap s.failed_login_attempts ip [] })
  else
    (false, { s with failed_login_attempts := updateMap s.failed_login_attempts ip attempts })

/-- `verify_session(session_token)` (app.py lines 326-330).  A missing cookie
arrives as `None` (`none` here) and an empty cookie as `""`; both are falsy
in `if not session_token`, so neither consults `active_sessions`. -/
def verify_session (session_token : Option String) (sessions : Sessions) : Bool :=
  match session_token with
  | none => false
  | some t => if t = "" then false else (sessions t).isSome

/-- The outcome of `POST /login` (app.py lines 419-466): a redirect to
`/login?error=blocked`, a redirect to `/` carrying a fresh `session_token`
cookie, or the re-rendered form with the remaining-attempts count. -/
inductive LoginResult where
  | blocked
  | success (token : String)
  | invalid (remaining : Int)
  deriving DecidableEq

/-- `login_submit` (app.py lines 419-466).  `now` models `time.time()` and
`new_token` models `secrets.token_urlsafe(32)` (only consumed on the success
path).  Order of effects is as in the source: block check first (with its
lazy cleanup side effect), then the credential comparison; on success the
session is stored and the ip's failure ledger dropped; on failure
`record_failed_attempt` runs and the remaining count is read back from the
mutated ledger. -/
def login_submit (client_ip login_id login_password : String) (now : Int)
    (new_token : String) (s : ServerState) : LoginResult × ServerState :=
  let check := is_ip_blocked client_ip now s
  if check.1 then
    (LoginResult.blocked, check.2)
  else
    let s1 := check.2
    if login_id == LOGIN_ID && login_password == LOGIN_PASSWORD then
      let s2 :=
        { s1 with
          active_sessions :=
            updateMap s1.active_sessions new_token (some { ip := client_ip, created_at := now }),
          failed_login_attempts := updateMap s1.failed_login_attempts client_ip [] }
      (LoginResult.success new_token, s2)
    else
      let rec1 := record_failed_attempt client_ip now s1
      if rec1.1 then
        (LoginResult.blocked, rec1.2)
      else
        ((LoginResult.invalid
            ((MAX_FAILED_ATTEMPTS : Int) - (rec1.2.failed_login_attempts client_ip).length)),
          rec1.2)

/-- `GET /logout` (app.py lines 539-547): deletes the session entry iff the
cookie is non-empty and present in `active_sessions`. -/
def logout (session_token : Option String) (sessions : Sessions) : Sessions :=
  match session_token with
  | none => sessions
  | some t =>
      if t == "" then sessions
      else if (sessions t).isSome then updateMap sessions t none
      else sessions

/-- Outcome of `GET /` (app.py lines 549-554). -/
inductive RootResponse where
  | redirectLogin
  | serveIndex
  deriving DecidableEq

/-- `read_root` (app.py lines 549-554): redirect to `/login` unless the
session cookie verifies. -/
def read_root (session_token : Option String) (sessions : Sessions) : RootResponse :=
  if verify_session session_token sessions then RootResponse.serveIndex
  else RootResponse.redirectLogin

/-- Outcome of the `require_auth` dependency (app.py lines 332-336). -/
inductive AuthCheck where
  | ok
  | unauthorized401
  deriving DecidableEq

/-- `require_auth` (app.py lines 332-336): raises HTTP 401 unless the session
cookie verifies. -/
def require_auth (session_token : Option String) (sessions : Sessions) : AuthCheck :=
  if verify_session session_token sessions then AuthCheck.ok
  else AuthCheck.unauthorized401

/-! ## The video Object Cache and `POST /api/extend-video` -/

/-- A raised `HTTPException(status_code, detail)` (FastAPI/Starlette). -/
structure HTTPErrorResponse where
  status_code : Nat
  detail : String
  deriving DecidableEq

/-- The detail string of the not-found branch,
`f"비디오를 찾을 수 없습니다. UUID: {video_uuid}"` (app.py line 1124). -/
def videoNotFoundDetail (video_uuid : String) : String :=
  "비디오를 찾을 수 없습니다. UUID: " ++ video_uuid

/-- `str(e)` for a Starlette `HTTPException`, which renders as
`f"{status_code}: {detail}"`. -/
def httpErrorStr (e : HTTPErrorResponse) : String :=
  toString e.status_code ++ ": " ++ e.detail

/-- The body of the `try:` block of `extend_video` (app.py lines 1118-1204),
restricted to its observable effect on `video_objects_cache`.  The cache
holds opaque SDK video objects, modelled by a type parameter `α`.  The remote
generation call (`client.models.generate_videos` + polling + download, an
external collaborator) is modelled by the parameter `generation`: `.ok
payload` for a completed extension and `.error msg` for the paths that raise
`HTTPException(500, msg)`.  `new_video_uuid` models `str(uuid.uuid4())`.  On
success the extended object is stored under the fresh UUID and then the
previous UUID's entry is deleted (lines 1189-1197). -/
def extend_video_try {α : Type} (video_uuid new_video_uuid : String)
    (generation : Except String α) (cache : String → Option α) :
    Except HTTPErrorResponse String × (String → Option α) :=
  if (cache video_uuid).isNone then
    (Except.error { status_code := 400, detail := videoNotFoundDetail video_uuid }, cache)
  else
    match generation with
    | Except.error msg =>
        (Except.error { status_code := 500, detail := msg }, cache)
    | Except.ok payload =>
        let c1 := updateMap cache new_video_uuid (some payload)
        let c2 := if (c1 video_uuid).isSome then updateMap c1 video_uuid none else c1
        (Except.ok new_video_uuid, c2)

/-- `extend_video` (app.py lines 1110-1208): the `try:` body above wrapped in
`except Exception as e: raise HTTPException(status_code=500, detail=str(e))`.
FastAPI's `HTTPException` derives from `Exception`, so an `HTTPException`
raised inside the `try:` block is caught here too and re-raised with status
500 and detail `str(e)`. -/
def extend_video {α : Type} (video_uuid new_video_uuid : String)
    (generation : Except String α) (cache : String → Option α) :
    Except HTTPErrorResponse String × (String → Option α) :=
  let r := extend_video_try video_uuid new_video_uuid generation cache
  match r.1 with
  | Except.error e => (Except.error { status_code := 500, detail := httpErrorStr e }, r.2)
  | Except.ok v => (Except.ok v, r.2)

/-! ## Specification-side mirror definitions -/

/-- The Block List membership predicate as the spec words it (§3 BlockEntry,
§4.2): "an identifier is blocked iff an entry exists AND expiry > now".
Stated separately from `is_ip_blocked` so that the code's return value can be
compared against it. -/
def blockedSpec (ip : String) (now : Int) (s : ServerState) : Bool :=
  match s.blocked_ips ip with
  | some block_until => now < block_until
  | none => false

/-! ## Concrete states used by the spec's scenario and by the witnesses -/

/-- State after the first wrong-credential submission of the §8 scenario
(identifier "10.0.0.5", t = 0). -/
def scenState1 : ServerState :=
  (login_submit "10.0.0.5" "admin" "wrong" 0 "tokA" emptyState).2

/-- State after the second wrong-credential submission (t = 1). -/
def scenState2 : ServerState :=
  (login_submit "10.0.0.5" "admin" "wrong" 1 "tokA" scenState1).2

/-- State after the third wrong-credential submission (t = 2), which triggers
the block. -/
def scenState3 : ServerState :=
  (login_submit "10.0.0.5" "admin" "wrong" 2 "tokA" scenState2).2

/-- A state in which "9.9.9.9" is blocked until t = 500 and has one recorded
failure at t = 450. -/
def sampleBlockedState : ServerState :=
  { emptyState with
    blocked_ips := updateMap emptyState.blocked_ips "9.9.9.9" (some 500),
    failed_login_attempts := updateMap emptyState.failed_login_attempts "9.9.9.9" [450] }

/-- A state in which "8.8.8.8" carries a block entry that expired at t = 100. -/
def expiredBlockState : ServerState :=
  { emptyState with
    blocked_ips := updateMap emptyState.blocked_ips "8.8.8.8" (some 100) }

/-- A session store holding exactly the token "tok-c6". -/
def sampleSessions : Sessions :=
  updateMap emptyState.active_sessions "tok-c6" (some { ip := "1.1.1.1", created_at := 0 })

/-- A video cache holding exactly the identifier "uuid-old" (payloads
modelled as `Nat`). -/
def sampleVideoCache : String → Option Nat :=
  updateMap (fun _ => none) "uuid-old" (some 7)

/-- An empty video cache (payloads modelled as `Nat`). -/
def emptyVideoCache : String → Option Nat :=
  fun _ => none

/-! ## Helper lemmas -/

/-- Evaluating `updateMap` at the written key. -/
lemma updateMap_same {α : Type} (m : String → α) (k : String) (v : α) :
    updateMap m k v k = v := by
  simp [updateMap]

/-- Evaluating `updateMap` away from the written key. -/
lemma updateMap_other {α : Type} (m : String → α) (k q : String) (v : α) (h : q ≠ k) :
    updateMap m k v q = m q := by
  simp [updateMap, h]

/-- `record_failed_attempt` below the threshold: no block, the pruned list
with `now` appended is stored. -/
lemma record_no_block (ip : String) (now : Int) (s : ServerState)
    (h : ((s.failed_login_attempts ip).filter (fun t => now - t < ATTEMPT_WINDOW)).length + 1 <
      MAX_FAILED_ATTEMPTS) :
    record_failed_attempt ip now s =
      (false,
        { s with failed_login_attempts :=
            (updateMap s.failed_login_attempts ip
              ((s.failed_login_attempts ip).filter (fun t => now - t < ATTEMPT_WINDOW) ++ [now])) }) := by
  unfold record_failed_attempt
  have hlen : ¬ MAX_FAILED_ATTEMPTS ≤
      (((s.failed_login_attempts ip).filter (fun t => now - t < ATTEMPT_WINDOW)) ++ [now]).length := by
    simp only [List.length_append, List.length_singleton]
    omega
  simp only [hlen, if_false, Bool.false_eq_true, ite_false]

/-- `record_failed_attempt` at or above the threshold: block until
`now + BLOCK_DURATION` and clear the ledger. -/
lemma record_block (ip : String) (now : Int) (s : ServerState)
    (h : MAX_FAILED_ATTEMPTS ≤
      ((s.failed_login_attempts ip).filter (fun t => now - t < ATTEMPT_WINDOW)).length + 1) :
    record_failed_attempt ip now s =
      (true,
        { s with
          blocked_ips := (updateMap s.blocked_ips ip (some (now + BLOCK_DURATION))),
          failed_login_attempts := (updateMap s.failed_login_attempts ip []) }) := by
  unfold record_failed_attempt
  have hlen : MAX_FAILED_ATTEMPTS ≤
      (((s.failed_login_attempts ip).filter (fun t => now - t < ATTEMPT_WINDOW)) ++ [now]).length := by
    simp only [List.length_append, List.length_singleton]
    omega
  simp only [hlen, if_true, ite_true]

/-- `is_ip_blocked` never touches the failure ledger or the session store. -/
lemma is_ip_blocked_frame (ip : String) (now : Int) (s : ServerState) :
    (is_ip_blocked ip now s).2.failed_login_attempts = s.failed_login_attempts ∧
    (is_ip_blocked ip now s).2.active_sessions = s.active_sessions := by
  unfold is_ip_blocked
  cases hb : s.blocked_ips ip with
  | none => exact ⟨rfl, rfl⟩
  | some e =>
      by_cases hlt : now < e
      · simp [hlt]
      · simp [hlt]

/-- The returned flag of `is_ip_blocked` agrees with the spec's Block List
predicate. -/
lemma is_ip_blocked_fst (ip : String) (now : Int) (s : ServerState) :
    (is_ip_blocked ip now s).1 = blockedSpec ip now s := by
  unfold is_ip_blocked blockedSpec
  cases hb : s.blocked_ips ip with
  | none => rfl
  | some e =>
      by_cases hlt : now < e
      · simp [hlt]
      · simp [hlt]

/-- The success path of `login_submit`: with matching credentials and the
block check answering false, the fresh token is stored with the caller's
identifier and timestamp, the identifier's ledger is dropped, and the
handler reports success. -/
lemma login_success_sessions (ip tok : String) (now : Int) (s : ServerState)
    (hnb : (is_ip_blocked ip now s).1 = false) :
    (login_submit ip LOGIN_ID LOGIN_PASSWORD now tok s).2.active_sessions tok =
      some { ip := ip, created_at := now } ∧
    (login_submit ip LOGIN_ID LOGIN_PASSWORD now tok s).2.failed_login_attempts ip = [] ∧
    (login_submit ip LOGIN_ID LOGIN_PASSWORD now tok s).1 = LoginResult.success tok := by
  simp [login_submit, hnb, updateMap_same]

/-! ## Claims -/

/-- C1, counterexample: in the §8 scenario (identifier "10.0.0.5", wrong
credentials at t = 0, 1, 2), the third response is "blocked" and the block
expiry stored by the code is t = 2 + 300 = 302, so the login attempt at
t = 301 with the correct credentials is still rejected as blocked — it does
not succeed as the claim states. -/
theorem C1_login_at_301_still_blocked :
    (login_submit "10.0.0.5" "admin" "wrong" 2 "tokA" scenState2).1 = LoginResult.blocked ∧
    scenState3.blocked_ips "10.0.0.5" = some 302 ∧
    (login_submit "10.0.0.5" "admin" "admin" 301 "tokB" scenState3).1 = LoginResult.blocked := by
  decide

/-- C1, amended: wrong credentials from "10.0.0.5" at t = 0, 1, 2 give
"invalid (2 remaining)", "invalid (1 remaining)", then "blocked"; the login
attempt at t = 10 is rejected as blocked even with correct credentials; the
block expires at t = 2 + BLOCK_DURATION = 302, so the correct-credential
attempt at t = 302 (not t = 301) succeeds and a fresh session token is
stored. -/
theorem C1_scenario_amended :
    (login_submit "10.0.0.5" "admin" "wrong" 0 "tokA" emptyState).1 = LoginResult.invalid 2 ∧
    (login_submit "10.0.0.5" "admin" "wrong" 1 "tokA" scenState1).1 = LoginResult.invalid 1 ∧
    (login_submit "10.0.0.5" "admin" "wrong" 2 "tokA" scenState2).1 = LoginResult.blocked ∧
    (login_submit "10.0.0.5" "admin" "admin" 10 "tokB" scenState3).1 = LoginResult.blocked ∧
    scenState3.active_sessions "tokB" = none ∧
    (login_submit "10.0.0.5" "admin" "admin" 302 "tokB" scenState3).1 = LoginResult.success "tokB" ∧
    (login_submit "10.0.0.5" "admin" "admin" 302 "tokB" scenState3).2.active_sessions "tokB" =
      some { ip := "10.0.0.5", created_at := 302 } := by
  decide

/-- C3: `record_failed_attempt` first discards the stored timestamps outside
`ATTEMPT_WINDOW` of `now`, then appends `now`; the stored list (whose length
is the in-window count, read back by the caller, and whose threshold test is
the returned flag) therefore only ever holds in-window timestamps — unless
the count reaches the threshold, in which case the ledger is converted into
a block entry and cleared.  In particular failures at t = 0 and t = 61 leave
a count of 1, not 2. -/
theorem C3_window_slides (ip : String) (now : Int) (s : ServerState) :
    ((record_failed_attempt ip now s).2.failed_login_attempts ip =
      if MAX_FAILED_ATTEMPTS ≤
          ((s.failed_login_attempts ip).filter (fun t => now - t < ATTEMPT_WINDOW)).length + 1
        then []
        else (s.failed_login_attempts ip).filter (fun t => now - t < ATTEMPT_WINDOW) ++ [now]) ∧
    ((record_failed_attempt ip now s).1 =
      decide (MAX_FAILED_ATTEMPTS ≤
        ((s.failed_login_attempts ip).filter (fun t => now - t < ATTEMPT_WINDOW)).length + 1)) ∧
    (((record_failed_attempt ip now s).2.failed_login_attempts ip).all
      (fun t => now - t < ATTEMPT_WINDOW) = true) ∧
    ((record_failed_attempt "10.0.0.5" 61
        (record_failed_attempt "10.0.0.5" 0 emptyState).2).2.failed_login_attempts "10.0.0.5" =
      [61]) := by
  by_cases hc : MAX_FAILED_ATTEMPTS ≤
      ((s.failed_login_attempts ip).filter (fun t => now - t < ATTEMPT_WINDOW)).length + 1
  · rw [record_block ip now s hc]
    refine ⟨?_, ?_, ?_, by decide⟩
    · simp [updateMap_same, hc]
    · simp [hc]
    · simp [updateMap_same]
  · have hlt : ((s.failed_login_attempts ip).filter (fun t => now - t < ATTEMPT_WINDOW)).length + 1 <
        MAX_FAILED_ATTEMPTS := by omega
    rw [record_no_block ip now s hlt]
    refine ⟨?_, ?_, ?_, by decide⟩
    · simp [updateMap_same, hc]
    · simp [hc]
    · simp only [updateMap_same]
      rw [List.all_eq_true]
      intro t ht
      rcases List.mem_append.mp ht with h1 | h2
      · exact (List.mem_filter.mp h1).2
      · have hnow : t = now := by simpa using h2
        subst hnow
        simp [ATTEMPT_WINDOW]

/-- C4: while an identifier carries a live block entry (expiry strictly
after `now`), `login_submit` rejects the attempt as blocked whatever the
submitted credentials, and the failure ledger — indeed the whole state — is
left untouched. -/
theorem C4_blocked_attempt_no_mutation (ip lid lpw tok : String) (now e : Int) (s : ServerState)
    (hb : s.blocked_ips ip = some e) (hlt : now < e) :
    (login_submit ip lid lpw now tok s).1 = LoginResult.blocked ∧
    (login_submit ip lid lpw now tok s).2.failed_login_attempts = s.failed_login_attempts := by
  have hblk : is_ip_blocked ip now s = (true, s) := by
    unfold is_ip_blocked
    rw [hb]
    simp [hlt]
  simp [login_submit, hblk]

/-- C4 witness: "9.9.9.9" is blocked until t = 500 with one failure at
t = 450 recorded; a correct-credential attempt at t = 450 is rejected as
blocked and the ledger is unchanged. -/
theorem C4_blocked_attempt_no_mutation_witness :
    sampleBlockedState.blocked_ips "9.9.9.9" = some 500 ∧ ((450 : Int) < 500) ∧
    ((login_submit "9.9.9.9" "admin" "admin" 450 "tokW" sampleBlockedState).1 =
        LoginResult.blocked ∧
      (login_submit "9.9.9.9" "admin" "admin" 450 "tokW" sampleBlockedState).2.failed_login_attempts =
        sampleBlockedState.failed_login_attempts) :=
  ⟨by decide, by decide,
    C4_blocked_attempt_no_mutation "9.9.9.9" "admin" "admin" "tokW" 450 500 sampleBlockedState
      (by decide) (by decide)⟩

/-- C10: a request with no session cookie (`None`) or an empty one (`""`) is
never authenticated, whatever `active_sessions` holds: `verify_session`
returns false without reading the store, `GET /` redirects to `/login`, and
`require_auth` answers 401. -/
theorem C10_missing_token_never_authenticated (sessions : Sessions) :
    verify_session none sessions = false ∧
    verify_session (some "") sessions = false ∧
    read_root none sessions = RootResponse.redirectLogin ∧
    read_root (some "") sessions = RootResponse.redirectLogin ∧
    require_auth none sessions = AuthCheck.unauthorized401 ∧
    require_auth (some "") sessions = AuthCheck.unauthorized401 := by
  refine ⟨rfl, by simp [verify_session], ?_, ?_, ?_, ?_⟩ <;>
    simp [read_root, require_auth, verify_session]

/-- C2: from a clean ledger, three failures at t1 ≤ t2 ≤ t3 all within
`ATTEMPT_WINDOW` of the last one (the window test of the source is strict:
an attempt exactly 60s old is discarded) leave the first two attempts
unblocked, block on the third, store expiry t3 + `BLOCK_DURATION`, and
`is_ip_blocked` then answers true exactly for times strictly before
t3 + `BLOCK_DURATION`. -/
theorem C2_three_failures_block_duration (ip : String) (t1 t2 t3 now : Int) (s : ServerState)
    (hled : s.failed_login_attempts ip = [])
    (h12 : t1 ≤ t2) (h23 : t2 ≤ t3)
    (hw1 : t3 - t1 < ATTEMPT_WINDOW) (hw2 : t3 - t2 < ATTEMPT_WINDOW) :
    (record_failed_attempt ip t1 s).1 = false ∧
    (record_failed_attempt ip t2 (record_failed_attempt ip t1 s).2).1 = false ∧
    (record_failed_attempt ip t3
        (record_failed_attempt ip t2 (record_failed_attempt ip t1 s).2).2).1 = true ∧
    (record_failed_attempt ip t3
        (record_failed_attempt ip t2 (record_failed_attempt ip t1 s).2).2).2.blocked_ips ip =
      some (t3 + BLOCK_DURATION) ∧
    ((is_ip_blocked ip now
        (record_failed_attempt ip t3
          (record_failed_attempt ip t2 (record_failed_attempt ip t1 s).2).2).2).1 =
      decide (now < t3 + BLOCK_DURATION)) := by
  have h21 : t2 - t1 < ATTEMPT_WINDOW := by omega
  have e1 : record_failed_attempt ip t1 s =
      (false, { s with failed_login_attempts := (updateMap s.failed_login_attempts ip [t1]) }) := by
    have h : ((s.failed_login_attempts ip).filter (fun t => t1 - t < ATTEMPT_WINDOW)).length + 1 <
        MAX_FAILED_ATTEMPTS := by
      rw [hled]
      simp [MAX_FAILED_ATTEMPTS]
    rw [record_no_block ip t1 s h, hled]
    simp
  have l1 : (record_failed_attempt ip t1 s).2.failed_login_attempts ip = [t1] := by
    rw [e1]
    simp [updateMap_same]
  have hf2 : ([t1] : List Int).filter (fun t => t2 - t < ATTEMPT_WINDOW) = [t1] := by
    simp [h21]
  have e2 : record_failed_attempt ip t2 (record_failed_attempt ip t1 s).2 =
      (false,
        { (record_failed_attempt ip t1 s).2 with failed_login_attempts :=
            (updateMap (record_failed_attempt ip t1 s).2.failed_login_attempts ip [t1, t2]) }) := by
    have h : (((record_failed_attempt ip t1 s).2.failed_login_attempts ip).filter
        (fun t => t2 - t < ATTEMPT_WINDOW)).length + 1 < MAX_FAILED_ATTEMPTS := by
      rw [l1, hf2]
      simp [MAX_FAILED_ATTEMPTS]
    rw [record_no_block _ _ _ h, l1, hf2]
    simp
  have l2 : (record_failed_attempt ip t2
      (record_failed_attempt ip t1 s).2).2.failed_login_attempts ip = [t1, t2] := by
    rw [e2]
    simp [updateMap_same]
  have hf3 : ([t1, t2] : List Int).filter (fun t => t3 - t < ATTEMPT_WINDOW) = [t1, t2] := by
    simp [hw1, hw2]
  have h3 : MAX_FAILED_ATTEMPTS ≤
      (((record_failed_attempt ip t2
          (record_failed_attempt ip t1 s).2).2.failed_login_attempts ip).filter
        (fun t => t3 - t < ATTEMPT_WINDOW)).length + 1 := by
    rw [l2, hf3]
    simp [MAX_FAILED_ATTEMPTS]
  have e3 := record_block ip t3
    (record_failed_attempt ip t2 (record_failed_attempt ip t1 s).2).2 h3
  have hb3 : (record_failed_attempt ip t3
      (record_failed_attempt ip t2 (record_failed_attempt ip t1 s).2).2).2.blocked_ips ip =
      some (t3 + BLOCK_DURATION) := by
    rw [e3]
    simp [updateMap_same]
  refine ⟨by rw [e1], by rw [e2], by rw [e3], hb3, ?_⟩
  unfold is_ip_blocked
  rw [hb3]
  by_cases hnow : now < t3 + BLOCK_DURATION
  · simp [hnow]
  · simp [hnow]

/-- C2 witness: identifier "1.2.3.4" fails at t = 0, 1, 2 from the empty
state; the third attempt blocks, the stored expiry is 302, and at t = 100
the identifier reads as blocked. -/
theorem C2_three_failures_block_duration_witness :
    (emptyState.failed_login_attempts "1.2.3.4" = []) ∧ ((0 : Int) ≤ 1) ∧ ((1 : Int) ≤ 2) ∧
    ((2 : Int) - 0 < ATTEMPT_WINDOW) ∧ ((2 : Int) - 1 < ATTEMPT_WINDOW) ∧
    ((record_failed_attempt "1.2.3.4" 0 emptyState).1 = false ∧
      (record_failed_attempt "1.2.3.4" 1 (record_failed_attempt "1.2.3.4" 0 emptyState).2).1 =
        false ∧
      (record_failed_attempt "1.2.3.4" 2
          (record_failed_attempt "1.2.3.4" 1
            (record_failed_attempt "1.2.3.4" 0 emptyState).2).2).1 = true ∧
      (record_failed_attempt "1.2.3.4" 2
          (record_failed_attempt "1.2.3.4" 1
            (record_failed_attempt "1.2.3.4" 0 emptyState).2).2).2.blocked_ips "1.2.3.4" =
        some (2 + BLOCK_DURATION) ∧
      ((is_ip_blocked "1.2.3.4" 100
          (record_failed_attempt "1.2.3.4" 2
            (record_failed_attempt "1.2.3.4" 1
              (record_failed_attempt "1.2.3.4" 0 emptyState).2).2).2).1 =
        decide ((100 : Int) < 2 + BLOCK_DURATION))) :=
  ⟨rfl, by decide, by decide, by decide, by decide,
    C2_three_failures_block_duration "1.2.3.4" 0 1 2 100 emptyState rfl (by decide) (by decide)
      (by decide) (by decide)⟩

/-- C5: a successful login (correct credentials while the block check
answers false) clears the identifier's failure ledger — whatever it held —
and stores the fresh token mapped to the identifier and the creation
time. -/
theorem C5_success_clears_ledger_and_stores_session (ip lid lpw tok : String) (now : Int)
    (s : ServerState)
    (hnb : (is_ip_blocked ip now s).1 = false)
    (hid : lid = LOGIN_ID) (hpw : lpw = LOGIN_PASSWORD) :
    (login_submit ip lid lpw now tok s).1 = LoginResult.success tok ∧
    (login_submit ip lid lpw now tok s).2.failed_login_attempts ip = [] ∧
    (login_submit ip lid lpw now tok s).2.active_sessions tok =
      some { ip := ip, created_at := now } := by
  subst hid
  subst hpw
  obtain ⟨h1, h2, h3⟩ := login_success_sessions ip tok now s hnb
  exact ⟨h3, h2, h1⟩

/-- C5 witness: identifier "9.9.9.9" has a recorded failure at t = 450 and
an expired block; logging in correctly at t = 600 clears the ledger and
stores the token "tokS". -/
theorem C5_success_clears_ledger_and_stores_session_witness :
    ((is_ip_blocked "9.9.9.9" 600 sampleBlockedState).1 = false) ∧
    ("admin" = LOGIN_ID) ∧ ("admin" = LOGIN_PASSWORD) ∧
    ((login_submit "9.9.9.9" "admin" "admin" 600 "tokS" sampleBlockedState).1 =
        LoginResult.success "tokS" ∧
      (login_submit "9.9.9.9" "admin" "admin" 600 "tokS" sampleBlockedState).2.failed_login_attempts
          "9.9.9.9" = [] ∧
      (login_submit "9.9.9.9" "admin" "admin" 600 "tokS" sampleBlockedState).2.active_sessions
          "tokS" = some { ip := "9.9.9.9", created_at := 600 }) :=
  ⟨by decide, rfl, rfl,
    C5_success_clears_ledger_and_stores_session "9.9.9.9" "admin" "admin" "tokS" 600
      sampleBlockedState (by decide) rfl rfl⟩

/-- C6: a token minted by a successful login verifies immediately;
after `logout` of a token, that token no longer verifies; `logout` touches
no entry other than the given token's; and on a store not holding the token
`logout` is a no-op (so it is idempotent and cannot fail). -/
theorem C6_session_lifecycle (ip tok othertok : String) (now : Int) (s : ServerState)
    (sess sess0 : Sessions)
    (htok : tok ≠ "")
    (hnb : (is_ip_blocked ip now s).1 = false)
    (hother : othertok ≠ tok)
    (h0 : sess0 tok = none) :
    verify_session (some tok)
        (login_submit ip LOGIN_ID LOGIN_PASSWORD now tok s).2.active_sessions = true ∧
    verify_session (some tok) (logout (some tok) sess) = false ∧
    logout (some tok) sess othertok = sess othertok ∧
    logout (some tok) sess0 = sess0 := by
  refine ⟨?_, ?_, ?_, ?_⟩
  · have h1 := (login_success_sessions ip tok now s hnb).1
    simp [verify_session, htok, h1]
  · cases hstok : sess tok with
    | none => simp [logout, verify_session, htok, hstok]
    | some d => simp [logout, verify_session, htok, hstok, updateMap_same]
  · by_cases he : (tok == "") = true
    · simp [logout, he]
    · cases hstok : sess tok with
      | none => simp [logout, he, hstok]
      | some d => simp [logout, he, hstok, updateMap, hother]
  · unfold logout
    simp [h0]

/-- C6 witness: on the store holding only "tok-c6", a login minting "tok-c6"
verifies, logging "tok-c6" out de-verifies it and leaves "tok-other" alone,
and logout on the empty store is a no-op. -/
theorem C6_session_lifecycle_witness :
    ("tok-c6" ≠ "") ∧
    ((is_ip_blocked "1.1.1.1" 0 emptyState).1 = false) ∧
    ("tok-other" ≠ "tok-c6") ∧
    (emptyState.active_sessions "tok-c6" = none) ∧
    (verify_session (some "tok-c6")
        (login_submit "1.1.1.1" LOGIN_ID LOGIN_PASSWORD 0 "tok-c6" emptyState).2.active_sessions =
        true ∧
      verify_session (some "tok-c6") (logout (some "tok-c6") sampleSessions) = false ∧
      logout (some "tok-c6") sampleSessions "tok-other" = sampleSessions "tok-other" ∧
      logout (some "tok-c6") emptyState.active_sessions = emptyState.active_sessions) :=
  ⟨by decide, by decide, by decide, rfl,
    C6_session_lifecycle "1.1.1.1" "tok-c6" "tok-other" 0 emptyState sampleSessions
      emptyState.active_sessions (by decide) (by decide) (by decide) rfl⟩

/-- C7: the flag returned by `is_ip_blocked` equals the spec's Block List
predicate ("an entry exists and its expiry exceeds now"); on an entry whose
expiry is at or before `now`, the call deletes the entry and returns false;
and a subsequent correct-credential login on such an expired entry succeeds
rather than being auto-rejected. -/
theorem C7_lazy_expiry_and_merits (ip tok : String) (now e : Int) (s sE : ServerState)
    (hE : sE.blocked_ips ip = some e) (hexp : e ≤ now) :
    (is_ip_blocked ip now s).1 = blockedSpec ip now s ∧
    (is_ip_blocked ip now sE).1 = false ∧
    (is_ip_blocked ip now sE).2.blocked_ips ip = none ∧
    (login_submit ip LOGIN_ID LOGIN_PASSWORD now tok sE).1 = LoginResult.success tok := by
  have hnotlt : ¬ now < e := not_lt.mpr hexp
  have heB : is_ip_blocked ip now sE =
      (false, { sE with blocked_ips := (updateMap sE.blocked_ips ip none) }) := by
    unfold is_ip_blocked
    rw [hE]
    simp [hnotlt]
  refine ⟨is_ip_blocked_fst ip now s, by rw [heB], ?_, ?_⟩
  · rw [heB]
    simp [updateMap_same]
  · have hf : (is_ip_blocked ip now sE).1 = false := by rw [heB]
    exact (login_success_sessions ip tok now sE hf).2.2

/-- C7 witness: "8.8.8.8" carries a block entry that expired at t = 100; at
t = 150 the check answers false, removes the entry, and a correct login
succeeds. -/
theorem C7_lazy_expiry_and_merits_witness :
    (expiredBlockState.blocked_ips "8.8.8.8" = some 100) ∧ ((100 : Int) ≤ 150) ∧
    ((is_ip_blocked "8.8.8.8" 150 emptyState).1 = blockedSpec "8.8.8.8" 150 emptyState ∧
      (is_ip_blocked "8.8.8.8" 150 expiredBlockState).1 = false ∧
      (is_ip_blocked "8.8.8.8" 150 expiredBlockState).2.blocked_ips "8.8.8.8" = none ∧
      (login_submit "8.8.8.8" LOGIN_ID LOGIN_PASSWORD 150 "tokE" expiredBlockState).1 =
        LoginResult.success "tokE") :=
  ⟨by decide, by decide,
    C7_lazy_expiry_and_merits "8.8.8.8" "tokE" 150 100 emptyState expiredBlockState (by decide)
      (by decide)⟩

/-- C8: on a cached identifier, the extend operation stores the freshly
generated payload under the new identifier, deletes the old identifier's
entry, reports the new identifier, and leaves every other identifier's entry
as it was. -/
theorem C8_extend_replaces_entry {α : Type} (video_uuid new_video_uuid other : String)
    (p0 payload : α) (cache : String → Option α)
    (hne : new_video_uuid ≠ video_uuid) (hold : cache video_uuid = some p0)
    (ho1 : other ≠ video_uuid) (ho2 : other ≠ new_video_uuid) :
    (extend_video video_uuid new_video_uuid (Except.ok payload) cache).1 =
      Except.ok new_video_uuid ∧
    (extend_video video_uuid new_video_uuid (Except.ok payload) cache).2 video_uuid = none ∧
    (extend_video video_uuid new_video_uuid (Except.ok payload) cache).2 new_video_uuid =
      some payload ∧
    (extend_video video_uuid new_video_uuid (Except.ok payload) cache).2 other = cache other := by
  have hne' : video_uuid ≠ new_video_uuid := Ne.symm hne
  unfold extend_video extend_video_try
  simp [hold, updateMap, hne, hne', ho1, ho2]

/-- C8 witness: the cache holds 7 under "uuid-old"; extending with fresh
identifier "uuid-new" and generated payload 9 removes "uuid-old", stores 9
under "uuid-new" and leaves "uuid-other" absent as before. -/
theorem C8_extend_replaces_entry_witness :
    ("uuid-new" ≠ "uuid-old") ∧ (sampleVideoCache "uuid-old" = some 7) ∧
    ("uuid-other" ≠ "uuid-old") ∧ ("uuid-other" ≠ "uuid-new") ∧
    ((extend_video "uuid-old" "uuid-new" (Except.ok 9) sampleVideoCache).1 =
        Except.ok "uuid-new" ∧
      (extend_video "uuid-old" "uuid-new" (Except.ok 9) sampleVideoCache).2 "uuid-old" = none ∧
      (extend_video "uuid-old" "uuid-new" (Except.ok 9) sampleVideoCache).2 "uuid-new" =
        some 9 ∧
      (extend_video "uuid-old" "uuid-new" (Except.ok 9) sampleVideoCache).2 "uuid-other" =
        sampleVideoCache "uuid-other") :=
  ⟨by decide, by decide, by decide, by decide,
    C8_extend_replaces_entry "uuid-old" "uuid-new" "uuid-other" 7 9 sampleVideoCache (by decide)
      (by decide) (by decide) (by decide)⟩

/-- C9: on an identifier absent from the cache, the extend handler raises
the intended `HTTPException(400, "비디오를 찾을 수 없습니다. UUID: ...")`,
but the route's blanket `except Exception` catches it and re-raises it as a
generic `HTTPException(500, str(e))`, so the client receives status 500 with
detail "400: 비디오를 찾을 수 없습니다. UUID: ..." instead of the specific
400 artifact-not-found error; the cache is left unchanged on this path. -/
theorem C9_missing_uuid_rewrapped_as_500 {α : Type} (video_uuid new_video_uuid : String)
    (generation : Except String α) (cache : String → Option α)
    (hmiss : cache video_uuid = none) :
    (extend_video video_uuid new_video_uuid generation cache).1 =
      Except.error ⟨500, httpErrorStr ⟨400, videoNotFoundDetail video_uuid⟩⟩ ∧
    (extend_video video_uuid new_video_uuid generation cache).2 = cache := by
  unfold extend_video extend_video_try
  simp [hmiss]

/-- C9 witness: the empty cache does not hold "uuid-x"; the extend request
answers status 500 (not the intended specific 400) with the wrapped detail
string, and the cache stays empty. -/
theorem C9_missing_uuid_rewrapped_as_500_witness :
    (emptyVideoCache "uuid-x" = none) ∧
    ((extend_video "uuid-x" "uuid-y" (Except.ok 3) emptyVideoCache).1 =
        Except.error ⟨500, httpErrorStr ⟨400, videoNotFoundDetail "uuid-x"⟩⟩ ∧
      (extend_video "uuid-x" "uuid-y" (Except.ok 3) emptyVideoCache).2 = emptyVideoCache) :=
  ⟨rfl, C9_missing_uuid_rewrapped_as_500 "uuid-x" "uuid-y" (Except.ok 3) emptyVideoCache rfl⟩
